import Mathlib

/-!
Verification of the pyupdi UPDI programmer against its specification.

The definitions below are a shallow embedding of the Python sources under
src/: pure computations become Lean functions on `Nat` and `List Nat`,
Python exceptions become `Except String`, unbounded polling loops are
indexed by an explicit iteration budget (the number of polls the loop is
observed for), and the responses of the target device are supplied as
oracle functions. Python list mutation is modelled by an explicit store
mapping references to list values.

The module src/updi/constants.py is imported throughout the sources but is
not part of src/; its values are modelled from the specification and each
such definition is marked accordingly.
-/

namespace Pyupdi


/-- Modelled from the spec: constants.py is absent from src/. SYNC byte 0x55
that starts every UPDI instruction (spec section 4.2 and section 6). -/
def UPDI_PHY_SYNC : Nat := 0x55

/-- Modelled from the spec: constants.py is absent from src/. ACK byte (spec:
"ACK byte = 0x40"). -/
def UPDI_PHY_ACK : Nat := 0x40

/-- Modelled from the spec: constants.py is absent from src/. KEY opcode base
0xE0 (spec opcode table). -/
def UPDI_KEY : Nat := 0xE0

/-- Modelled from the spec: constants.py is absent from src/. KEY-variant flag
for a key write, 0x00 (spec: "KEY | (SIB=0x04 or KEY=0x00)"). -/
def UPDI_KEY_KEY : Nat := 0x00

/-- Modelled from the spec: constants.py is absent from src/. Size flag for a
64-bit key, 0 (spec: "64-bit=0, 128-bit=1"). -/
def UPDI_KEY_64 : Nat := 0x00

/-- Modelled from the spec: constants.py is absent from src/. ST opcode base
0x60 (spec opcode table). -/
def UPDI_ST : Nat := 0x60

/-- Modelled from the spec: constants.py is absent from src/. Pointer
post-increment mode flag 0x04 (spec: "post-increment=0x04"). -/
def UPDI_PTR_INC : Nat := 0x04

/-- Modelled from the spec: constants.py is absent from src/. Pointer
set-address mode flag 0x08 (spec: "set-address=0x08"). -/
def UPDI_PTR_ADDRESS : Nat := 0x08

/-- Modelled from the spec: constants.py is absent from src/. 16-bit data-size
flag 0x01 (spec: "Data-size flag: 8-bit = 0x00, 16-bit = 0x01"). -/
def UPDI_DATA_16 : Nat := 0x01

/-- Modelled from the spec: constants.py is absent from src/. 8-bit data-size
flag 0x00. -/
def UPDI_DATA_8 : Nat := 0x00

/-- Modelled from the spec: constants.py is absent from src/. STS opcode base
0x40 (spec opcode table). -/
def UPDI_STS : Nat := 0x40

/-- Modelled from the spec: constants.py is absent from src/. 16-bit
address-size flag 0x04 (spec: "Address-size flag: 16-bit = 0x04"). -/
def UPDI_ADDRESS_16 : Nat := 0x04

/-- Modelled from the spec: constants.py is absent from src/. REPEAT opcode
base 0xA0 (spec opcode table). -/
def UPDI_REPEAT : Nat := 0xA0

/-- Modelled from the spec: constants.py is absent from src/. WORD-sized
repeat flag (spec: "REPEAT | size (BYTE=0, WORD=1)"). -/
def UPDI_REPEAT_WORD : Nat := 0x01

/-- Modelled from the spec: constants.py is absent from src/. LDCS opcode base
0x80 (spec opcode table). -/
def UPDI_LDCS : Nat := 0x80

/-- Modelled from the spec: constants.py is absent from src/. STCS opcode base
0xC0 (spec opcode table). -/
def UPDI_STCS : Nat := 0xC0

/-- Modelled from the spec: constants.py is absent from src/. Maximum repeat
batch size (spec: "UPDI_MAX_REPEAT_SIZE = 255"). -/
def UPDI_MAX_REPEAT_SIZE : Nat := 0xFF

/-- Modelled from the spec: constants.py is absent from src/. Bit position of
NVMPROG in ASI_SYS_STATUS (spec: "NVMPROG=3"). -/
def UPDI_ASI_SYS_STATUS_NVMPROG : Nat := 3

/-- Modelled from the spec: constants.py is absent from src/. Bit position of
RSTSYS in ASI_SYS_STATUS (spec: "RSTSYS=5"). -/
def UPDI_ASI_SYS_STATUS_RSTSYS : Nat := 5

/-- Modelled from the spec: constants.py is absent from src/. Bit position of
LOCKSTATUS in ASI_SYS_STATUS (spec: "LOCKSTATUS=0"). -/
def UPDI_ASI_SYS_STATUS_LOCKSTATUS : Nat := 0

/-- Modelled from the spec: constants.py is absent from src/. Bit position of
NVMPROG in ASI_KEY_STATUS (spec: "NVMPROG=4"). -/
def UPDI_ASI_KEY_STATUS_NVMPROG : Nat := 4

/-- Modelled from the spec: constants.py is absent from src/. The value
written to ASI_RESET_REQ to assert reset (spec: "write 0x59"). -/
def UPDI_RESET_REQ_VALUE : Nat := 0x59

/-- Modelled from the spec: constants.py is absent from src/. CS-space
register number of ASI_SYS_STATUS; the spec names the register without its
CS address, so the conventional value 0x0B is used (no claim depends on it). -/
def UPDI_ASI_SYS_STATUS : Nat := 0x0B

/-- Modelled from the spec: constants.py is absent from src/. CS-space
register number of ASI_KEY_STATUS (conventional value, no claim depends on
it). -/
def UPDI_ASI_KEY_STATUS : Nat := 0x07

/-- Modelled from the spec: constants.py is absent from src/. CS-space
register number of ASI_RESET_REQ (conventional value, no claim depends on
it). -/
def UPDI_ASI_RESET_REQ : Nat := 0x08

/-- Modelled from the spec: constants.py is absent from src/. CS-space
register number of STATUSA (conventional value, no claim depends on it). -/
def UPDI_CS_STATUSA : Nat := 0x00

/-- Modelled from the spec: constants.py is absent from src/. Bit position of
FLASH_BUSY in NVMCTRL.STATUS (spec: "FLASH_BUSY=0"). -/
def UPDI_NVM_STATUS_FLASH_BUSY : Nat := 0

/-- Modelled from the spec: constants.py is absent from src/. Bit position of
EEPROM_BUSY in NVMCTRL.STATUS (spec: "EEPROM_BUSY=1"). -/
def UPDI_NVM_STATUS_EEPROM_BUSY : Nat := 1

/-- Modelled from the spec: constants.py is absent from src/. Bit position of
WRITE_ERROR in NVMCTRL.STATUS (spec: "WRITE_ERROR=2"). -/
def UPDI_NVM_STATUS_WRITE_ERROR : Nat := 2

/-- Modelled from the spec: constants.py is absent from src/. The NVMProg key,
the ASCII bytes of "NVMProg " (spec section 4.3, Keys). -/
def UPDI_KEY_NVM : List Nat := [0x4E, 0x56, 0x4D, 0x50, 0x72, 0x6F, 0x67, 0x20]

/-! ## UpdiNvmProgrammer.pad_data (src/updi/nvm.py, lines 177-185)

Python:
  if len(data) % blocksize > 0:
      for _ in range(len(data) % blocksize, blocksize):
          data.append(0)
  return data

The loop runs blocksize - len(data) % blocksize times and appends the
literal byte 0 each time, ignoring the `character=0xFF` default parameter.
-/

/-- Value-level effect of UpdiNvmProgrammer.pad_data: the list after the
method returns. The appended byte is the literal 0 from the source. -/
def pad_data (data : List Nat) (blocksize : Nat) : List Nat :=
  if data.length % blocksize > 0 then
    data ++ List.replicate (blocksize - data.length % blocksize) 0
  else
    data

/-! ## Store model for Python list aliasing (claim C10)

A Python list object is a heap cell; we model the heap as a function from
references (naturals) to list values. `pad_data` mutates the cell of its
argument in place via list.append and returns the same reference;
`_write_mem` rebinds its local `data` to that same reference, and
`page_data` only reads copies (`data[:size]`), so the padding is the only
caller-visible mutation of `write_flash`.
-/

/-- Heap update at one reference. -/
def store_set (store : Nat → List Nat) (r : Nat) (v : List Nat) :
    Nat → List Nat :=
  fun i => if i = r then v else store i

/-- UpdiNvmProgrammer.pad_data at the heap level: mutates the list cell named
by `r` in place and returns that same reference (Python returns `data`
itself, not a copy). -/
def pad_data_ref (store : Nat → List Nat) (r blocksize : Nat) :
    (Nat → List Nat) × Nat :=
  (store_set store r (pad_data (store r) blocksize), r)

/-- Heap effect of UpdiNvmProgrammer._write_mem: the in-place padding of the
caller's list; `page_data` and the per-page writes only read from it. -/
def write_mem_ref (store : Nat → List Nat) (r pagesize : Nat) :
    Nat → List Nat :=
  (pad_data_ref store r pagesize).1

/-- Heap effect of UpdiNvmProgrammer.write_flash, which delegates to
_write_mem with the device flash pagesize. -/
def write_flash_ref (store : Nat → List Nat) (r pagesize : Nat) :
    Nat → List Nat :=
  write_mem_ref store r pagesize

/-! ## UpdiPhysical.send (src/updi/physical.py, lines 111-121)

Python:
  self.ser.write(command)
  echo = self.ser.read(len(command))

The serial read with a timeout returns up to the requested number of bytes
(whatever has arrived); the echo is bound to a local and never inspected.
-/

/-- pyserial ser.read(n) under a timeout: returns up to n bytes of the input
stream together with the remaining stream. -/
def ser_read (n : Nat) (inbuf : List Nat) : List Nat × List Nat :=
  (inbuf.take n, inbuf.drop n)

/-- UpdiPhysical.send: writes the command, then reads len(command) echo bytes
and discards them. The source never checks how many echo bytes actually
arrived and has no failing path. -/
def phy_send (command : List Nat) (inbuf : List Nat) :
    Except String (List Nat) :=
  let rd := ser_read command.length inbuf
  Except.ok rd.2

/-! ## UpdiDatalink.key (src/updi/link.py, lines 196-204)

Python:
  if len(key) != 8 << size:
      raise Exception("Invalid KEY length!")
  self.updi_phy.send([UPDI_PHY_SYNC, UPDI_KEY | UPDI_KEY_KEY | size])
  self.updi_phy.send(list(reversed(list(key))))
-/

/-- UpdiDatalink.key: the result is the list of phy send buffers, in order.
The length check precedes both sends, so nothing reaches the wire on the
error path. -/
def dl_key (size : Nat) (keyBytes : List Nat) :
    Except String (List (List Nat)) :=
  if keyBytes.length ≠ 8 <<< size then
    Except.error "Invalid KEY length!"
  else
    Except.ok [[UPDI_PHY_SYNC, UPDI_KEY ||| UPDI_KEY_KEY ||| size],
               keyBytes.reverse]

/-! ## The NVMPROG wait loop of UpdiApplication.enter_progmode
(src/updi/application.py, lines 150-154)

Python:
  while True:
      sys_status = self.datalink.ldcs(constants.UPDI_ASI_SYS_STATUS)
      if sys_status & (1 << constants.UPDI_ASI_SYS_STATUS_NVMPROG):
          break

The loop has no Timeout object and no iteration bound; only the break on
the NVMPROG bit leaves it.
-/

/-- Test of the NVMPROG bit in an ASI_SYS_STATUS byte (shared by
in_prog_mode and the enter_progmode wait loop). -/
def nvmprog_set (s : Nat) : Bool :=
  s &&& (1 <<< UPDI_ASI_SYS_STATUS_NVMPROG) ≠ 0

/-- The NVMPROG wait loop observed for `budget` iterations: `status k` is
the k-th ldcs(SYS_STATUS) response. The source loop has no deadline, so an
observation budget is the only way to phrase it as a function; `none` means
the loop was still running after `budget` polls. -/
def progmode_poll (status : Nat → Nat) (k : Nat) : Nat → Option Nat
  | 0 => none
  | n + 1 =>
    if nvmprog_set (status k) then some (status k)
    else progmode_poll status (k + 1) n

/-- The NVMPROG wait loop of enter_progmode terminates against the given
response stream: it breaks within some finite number of iterations. -/
def progmode_poll_exits (status : Nat → Nat) : Prop :=
  ∃ budget, (progmode_poll status 0 budget).isSome

/-! ## UpdiApplication.wait_flash_ready (src/updi/application.py, lines
193-212)

Python:
  timeout = Timeout(10000)
  while not timeout.expired():
      status = self.datalink.ld(nvmctrl + STATUS)
      if status & (1 << WRITE_ERROR): return False
      if not status & ((1 << EEPROM_BUSY) | (1 << FLASH_BUSY)): return True
  return False

The 10-second Timeout is modelled by the number of loop iterations it
admits before expired() turns true (`polls`); `status k` is the k-th
ld(nvmctrl+STATUS) response.
-/

/-- Busy test: FLASH_BUSY or EEPROM_BUSY set in an NVMCTRL.STATUS byte. -/
def nvm_busy (s : Nat) : Bool :=
  s &&& ((1 <<< UPDI_NVM_STATUS_EEPROM_BUSY) |||
         (1 <<< UPDI_NVM_STATUS_FLASH_BUSY)) ≠ 0

/-- WRITE_ERROR test in an NVMCTRL.STATUS byte. -/
def nvm_write_error (s : Nat) : Bool :=
  s &&& (1 <<< UPDI_NVM_STATUS_WRITE_ERROR) ≠ 0

/-- UpdiApplication.wait_flash_ready with the deadline expressed as the
number of polls it admits; after the deadline the loop falls through to
False. -/
def wait_flash_ready (status : Nat → Nat) (k : Nat) : Nat → Bool
  | 0 => false
  | n + 1 =>
    if nvm_write_error (status k) then false
    else if nvm_busy (status k) = false then true
    else wait_flash_ready status (k + 1) n

/-! ## UpdiDatalink.st_ptr_inc16 and UpdiApplication.write_data_words
(src/updi/link.py lines 162-180, src/updi/application.py lines 243-261)

st_ptr_inc16 sends [SYNC, ST|PTR_INC|DATA_16, data[0], data[1]], then
  n = 2
  while n < len(data):
      send([data[n], data[n + 1]]); n += 2
so with one trailing element left (n = len-1) it reads data[n+1] one past
the end of the list: a Python IndexError, modelled as its own error value.
ACK responses are taken as good (ACK failures are outside these claims);
the result of each function is the list of phy send buffers, in order.
-/

/-- The word-pair while loop of st_ptr_inc16, processing the tail of the
data two elements per iteration. -/
def stw_pairs : List Nat → Except String (List (List Nat))
  | [] => Except.ok []
  | [_] => Except.error "IndexError"
  | a :: b :: rest =>
    match stw_pairs rest with
    | Except.error e => Except.error e
    | Except.ok r => Except.ok ([a, b] :: r)

/-- UpdiDatalink.st_ptr_inc16: the opening frame reads data[0] and data[1]
unconditionally, then the loop sends the remaining pairs. -/
def st_ptr_inc16 (data : List Nat) : Except String (List (List Nat)) :=
  match data with
  | a :: b :: rest =>
    match stw_pairs rest with
    | Except.error e => Except.error e
    | Except.ok r =>
      Except.ok ([UPDI_PHY_SYNC, UPDI_ST ||| UPDI_PTR_INC ||| UPDI_DATA_16,
                  a, b] :: r)
  | _ => Except.error "IndexError"

/-- UpdiDatalink.st_ptr: the send buffer that sets the pointer register. -/
def st_ptr_sends (address : Nat) : List (List Nat) :=
  [[UPDI_PHY_SYNC, UPDI_ST ||| UPDI_PTR_ADDRESS ||| UPDI_DATA_16,
    address &&& 0xFF, (address >>> 8) &&& 0xFF]]

/-- UpdiDatalink.repeat: Python computes repeats - 1 as a signed integer and
masks its low bytes (on repeat(0) the wire carries 0xFF 0xFF from -1 in
two's complement: & 0xFF is emod 256 and the arithmetic >> 8 is fdiv). -/
def repeat_sends (repeats : Nat) : List (List Nat) :=
  [[UPDI_PHY_SYNC, UPDI_REPEAT ||| UPDI_REPEAT_WORD,
    (((repeats : Int) - 1).emod 256).toNat,
    (((((repeats : Int) - 1).fdiv 256)).emod 256).toNat]]

/-- UpdiDatalink.st16: the STS opcode+address frame, then the two data
bytes (both ACK reads taken as good). -/
def st16_sends (address value : Nat) : List (List Nat) :=
  [[UPDI_PHY_SYNC, UPDI_STS ||| UPDI_ADDRESS_16 ||| UPDI_DATA_16,
    address &&& 0xFF, (address >>> 8) &&& 0xFF],
   [value &&& 0xFF, (value >>> 8) &&& 0xFF]]

/-- UpdiApplication.write_data_words: two bytes go through st16; otherwise
only lengths above UPDI_MAX_REPEAT_SIZE << 1 are rejected ("Invalid
length") and the transfer is st_ptr, repeat(len >> 1), st_ptr_inc16. The
source checks neither evenness nor emptiness of the data. -/
def write_data_words (address : Nat) (data : List Nat) :
    Except String (List (List Nat)) :=
  if data.length = 2 then
    Except.ok (st16_sends address (data.getD 0 0 + (data.getD 1 0 <<< 8)))
  else if data.length > UPDI_MAX_REPEAT_SIZE <<< 1 then
    Except.error "Invalid length"
  else
    match st_ptr_inc16 data with
    | Except.error e => Except.error e
    | Except.ok sends =>
      Except.ok (st_ptr_sends address ++
        repeat_sends (data.length >>> 1) ++ sends)

/-! ## UpdiNvmProgrammer.read_flash and _read_mem (src/updi/nvm.py lines
74-78 and 86-105), UpdiApplication.read_data_words (src/updi/application.py
lines 367-385)

`mem` maps a byte address to the byte the target returns for it; the wire
mechanics of st_ptr / repeat / ld_ptr_inc16 deliver the 2*words bytes
starting at the pointer address.
-/

/-- UpdiApplication.read_data_words: range check, then the batched word
read returning words*2 bytes of target memory from `address`. -/
def read_data_words (mem : Nat → Nat) (address words : Nat) :
    Except String (List Nat) :=
  if words > UPDI_MAX_REPEAT_SIZE then
    Except.error "Cant read that many words in one go"
  else
    Except.ok ((List.range (2 * words)).map fun i => mem (address + i))

/-- The page loop of UpdiNvmProgrammer._read_mem (word-access path): reads
the given number of pages of pagesize/2 words, advancing the address by
pagesize each iteration and concatenating in order; also records each
(address, word-count) page read issued. -/
def read_mem_pages (mem : Nat → Nat) (address pagesize : Nat) :
    Nat → Except String (List (Nat × Nat) × List Nat)
  | 0 => Except.ok ([], [])
  | n + 1 =>
    match read_data_words mem address (pagesize >>> 1) with
    | Except.error e => Except.error e
    | Except.ok chunk =>
      match read_mem_pages mem (address + pagesize) pagesize n with
      | Except.error e => Except.error e
      | Except.ok (calls, rest) =>
        Except.ok ((address, pagesize >>> 1) :: calls, chunk ++ rest)

/-- UpdiNvmProgrammer._read_mem on the word-access path, as read_flash
calls it: progmode check, the page-alignment check (Python evaluates
size // pagesize first, which raises ZeroDivisionError when pagesize is 0,
modelled as its own error), then the page loop. -/
def read_mem_words (mem : Nat → Nat) (progmode : Bool)
    (address size pagesize : Nat) :
    Except String (List (Nat × Nat) × List Nat) :=
  if ¬ progmode then Except.error "Enter progmode first!"
  else if pagesize = 0 then Except.error "ZeroDivisionError"
  else if size % pagesize ≠ 0 then
    Except.error "Only full page aligned flash supported."
  else
    read_mem_pages mem address pagesize (size / pagesize)

/-- UpdiNvmProgrammer.read_flash: delegates to _read_mem with the device
flash pagesize and word access. -/
def read_flash (mem : Nat → Nat) (progmode : Bool)
    (address size pagesize : Nat) :
    Except String (List (Nat × Nat) × List Nat) :=
  read_mem_words mem progmode address size pagesize

/-! ## UpdiApplication.device_info (src/updi/application.py, lines 24-65)

The SIB is a byte string; Python slices it with sib[a:b], strips ASCII
whitespace and decodes with bytes.decode(), which raises
UnicodeDecodeError on bytes that are not valid (strict) UTF-8. The decoded
strings are modelled by their byte lists: strict UTF-8 decoding is
injective and the one comparison the source makes is against the ASCII
literal "P:2", whose encoding is unique, so equality of decoded strings
coincides with equality of the byte lists. After the parse the source logs
one ldcs(STATUSA) read, checks in_prog_mode with a SYS_STATUS read, and —
in progmode with a device profile — reads the 3-byte signature and the
revision byte through read_data.
-/

/-- Python bytearray.strip() whitespace test (ASCII space, tab, newlines,
vertical tab, form feed). -/
def is_space (b : Nat) : Bool :=
  b = 0x20 || b = 0x09 || b = 0x0A || b = 0x0D || b = 0x0B || b = 0x0C

/-- Python bytearray.strip(): removes leading and trailing whitespace. -/
def strip_bytes (l : List Nat) : List Nat :=
  ((l.dropWhile is_space).reverse.dropWhile is_space).reverse

/-- Python slice l[a:b] on a byte sequence. -/
def slice_bytes (l : List Nat) (a b : Nat) : List Nat :=
  (l.drop a).take (b - a)

/-- UTF-8 continuation byte test (0x80..0xBF). -/
def utf8_cont (c : Nat) : Bool :=
  0x80 ≤ c && c < 0xC0

/-- Validity of a byte list as strict UTF-8, as CPython's bytes.decode()
checks it: ASCII leads stand alone; leads 0x80..0xC1 are rejected
(continuations out of place and the overlong leads 0xC0/0xC1); two-byte
leads 0xC2..0xDF take one continuation; three-byte leads take two, with
0xE0 requiring 0xA0..0xBF first (no overlong) and 0xED capping it at 0x9F
(no surrogates); four-byte leads 0xF0..0xF4 take three, with 0xF0
requiring 0x90..0xBF first (no overlong) and 0xF4 capping it at 0x8F (no
code point above U+10FFFF); leads 0xF5 and beyond are rejected. -/
def utf8_valid : List Nat → Bool
  | [] => true
  | b :: rest =>
    if b < 0x80 then utf8_valid rest
    else if b < 0xC2 then false
    else if b < 0xE0 then
      match rest with
      | c1 :: rest2 => utf8_cont c1 && utf8_valid rest2
      | [] => false
    else if b < 0xF0 then
      match rest with
      | c1 :: c2 :: rest3 =>
        (if b = 0xE0 then 0xA0 ≤ c1 && c1 < 0xC0
         else if b = 0xED then 0x80 ≤ c1 && c1 < 0xA0
         else utf8_cont c1) && utf8_cont c2 && utf8_valid rest3
      | _ => false
    else if b < 0xF5 then
      match rest with
      | c1 :: c2 :: c3 :: rest4 =>
        (if b = 0xF0 then 0x90 ≤ c1 && c1 < 0xC0
         else if b = 0xF4 then 0x80 ≤ c1 && c1 < 0x90
         else utf8_cont c1) && utf8_cont c2 && utf8_cont c3 &&
          utf8_valid rest4
      | _ => false
    else false

/-- Python bytes.decode(): returns the decoded string (modelled by its
bytes) on valid strict UTF-8, raises UnicodeDecodeError otherwise. -/
def bytes_decode (l : List Nat) : Except String (List Nat) :=
  if utf8_valid l then Except.ok l else Except.error "UnicodeDecodeError"

/-- The ASCII bytes of "P:2". -/
def pdi_v2_bytes : List Nat := [0x50, 0x3A, 0x32]

/-- Datalink configuration touched by device_info. -/
structure DLConfig where
  bits24 : Bool

/-- Modelled from the spec: UpdiDatalink.set_24bit_updi is called by
UpdiApplication.device_info but is absent from src/updi/link.py (only its
caller is under src/); the spec says the call "enable[s] 24-bit addressing
on the DL", modelled as setting the flag. -/
def set_24bit_updi (cfg : DLConfig) (mode : Bool) : DLConfig :=
  { cfg with bits24 := mode }

/-- Application-object state device_info can change: which variant the
write_nvm method pointer holds (false = v0, assigned in the constructor;
true = v1) and the datalink configuration. -/
structure AppState where
  useV1 : Bool
  dl : DLConfig

/-- The parsed device information device_info returns. -/
structure DeviceInfoResult where
  family : List Nat
  nvm : List Nat
  ocd : List Nat
  osc : List Nat
  device_id : Option (List Nat)
  device_rev : Option Nat

/-- UpdiApplication.read_data: range check, then the batched byte read
returning size bytes of target memory from `address`. -/
def read_data (mem : Nat → Nat) (address size : Nat) :
    Except String (List Nat) :=
  if size > UPDI_MAX_REPEAT_SIZE then
    Except.error "Cant read that many bytes in one go"
  else
    Except.ok ((List.range size).map fun i => mem (address + i))

/-- UpdiApplication.device_info: `resp k` is the k-th ldcs response (read 0
is the STATUSA log read, read 1 the in_prog_mode check), `mem` the target
memory, `device` the optional profile as (sigrow_address, syscfg_address).
The four stripped fields are decoded in source order — family, then the
NVM revision, then (after the v1 switch) OCD and the oscillator — and each
decode can raise UnicodeDecodeError. When the decoded bytes 8..11 of the
SIB equal "P:2" the write_nvm pointer is moved to the v1 variant and
24-bit addressing is enabled on the DL. -/
def device_info (resp : Nat → Nat) (mem : Nat → Nat)
    (device : Option (Nat × Nat)) (st : AppState) (sib : List Nat) :
    Except String (DeviceInfoResult × AppState) :=
  let family := strip_bytes (slice_bytes sib 0 7)
  match bytes_decode family with
  | Except.error e => Except.error e
  | Except.ok familyS =>
    let nvm := strip_bytes (slice_bytes sib 8 11)
    match bytes_decode nvm with
    | Except.error e => Except.error e
    | Except.ok nvmS =>
      let st1 := if nvmS = pdi_v2_bytes then
          { useV1 := true, dl := set_24bit_updi st.dl true }
        else st
      let ocd := strip_bytes (slice_bytes sib 11 14)
      match bytes_decode ocd with
      | Except.error e => Except.error e
      | Except.ok ocdS =>
        let osc := strip_bytes (slice_bytes sib 15 19)
        match bytes_decode osc with
        | Except.error e => Except.error e
        | Except.ok oscS =>
          if nvmprog_set (resp 1) then
            match device with
            | some (sigrow_address, syscfg_address) =>
              match read_data mem sigrow_address 3 with
              | Except.error e => Except.error e
              | Except.ok devid =>
                match read_data mem (syscfg_address + 1) 1 with
                | Except.error e => Except.error e
                | Except.ok devrev =>
                  Except.ok ({ family := familyS, nvm := nvmS, ocd := ocdS,
                               osc := oscS, device_id := some devid,
                               device_rev := some (0x41 + devrev.headD 0) },
                             st1)
            | none =>
              Except.ok ({ family := familyS, nvm := nvmS, ocd := ocdS,
                           osc := oscS, device_id := none,
                           device_rev := none }, st1)
          else
            Except.ok ({ family := familyS, nvm := nvmS, ocd := ocdS,
                         osc := oscS, device_id := none,
                         device_rev := none }, st1)

/-! ## UpdiApplication.enter_progmode at the wire level
(src/updi/application.py lines 117-160 and 172-191)

Python:
  def enter_progmode(self):
      self._progmode_key()
      self.reset(apply_reset=True)
      self.reset(apply_reset=False)
      while True:
          sys_status = self.datalink.ldcs(UPDI_ASI_SYS_STATUS)
          if sys_status & (1 << NVMPROG): break
      if not self.in_prog_mode(): raise ...
      return True

_progmode_key returns early when in_prog_mode() is already true; the reset
toggle and the polls run unconditionally afterwards. The datalink is
modelled as an event trace plus a count of ldcs reads answered by the
oracle `resp`; the two unbounded polls carry an observation budget whose
exhaustion is an error value.
-/

/-- Wire-level events the application issues through the datalink. -/
inductive DLEvent where
  | ldcs (address : Nat) (response : Nat)
  | stcs (address : Nat) (value : Nat)
  | key (size : Nat) (keyBytes : List Nat)

/-- Datalink interaction state: ldcs reads issued so far (indexing the
oracle) and the event trace. -/
structure DLState where
  reads : Nat
  trace : List DLEvent

/-- One ldcs: returns the oracle's response and appends the event. -/
def ldcs_op (resp : Nat → Nat) (address : Nat) (s : DLState) :
    Nat × DLState :=
  (resp s.reads,
   { reads := s.reads + 1,
     trace := s.trace ++ [DLEvent.ldcs address (resp s.reads)] })

/-- One stcs: appends the event. -/
def stcs_op (address value : Nat) (s : DLState) : DLState :=
  { s with trace := s.trace ++ [DLEvent.stcs address value] }

/-- One key write: appends the event. -/
def key_op (size : Nat) (keyBytes : List Nat) (s : DLState) : DLState :=
  { s with trace := s.trace ++ [DLEvent.key size keyBytes] }

/-- UpdiApplication.in_prog_mode: one SYS_STATUS read, NVMPROG test. -/
def in_prog_mode_op (resp : Nat → Nat) (s : DLState) : Bool × DLState :=
  let r := ldcs_op resp UPDI_ASI_SYS_STATUS s
  (nvmprog_set r.1, r.2)

/-- UpdiApplication._progmode_key: returns without touching the wire again
when in_prog_mode() already holds; otherwise sends the NVMProg key and
requires the KEY_STATUS bit. -/
def progmode_key_op (resp : Nat → Nat) (s : DLState) :
    Except String DLState :=
  let r := in_prog_mode_op resp s
  if r.1 then Except.ok r.2
  else
    let s1 := key_op UPDI_KEY_64 UPDI_KEY_NVM r.2
    let r2 := ldcs_op resp UPDI_ASI_KEY_STATUS s1
    if r2.1 &&& (1 <<< UPDI_ASI_KEY_STATUS_NVMPROG) = 0 then
      Except.error "Key not accepted"
    else Except.ok r2.2

/-- Test of RSTSYS in a SYS_STATUS byte. -/
def rstsys_set (v : Nat) : Bool :=
  v &&& (1 <<< UPDI_ASI_SYS_STATUS_RSTSYS) ≠ 0

/-- UpdiApplication.reset(apply_reset=True): write 0x59 to RESET_REQ, read
SYS_STATUS and require RSTSYS set. -/
def reset_apply_op (resp : Nat → Nat) (s : DLState) :
    Except String DLState :=
  let s1 := stcs_op UPDI_ASI_RESET_REQ UPDI_RESET_REQ_VALUE s
  let r := ldcs_op resp UPDI_ASI_SYS_STATUS s1
  if rstsys_set r.1 = false then Except.error "Error applying reset"
  else Except.ok r.2

/-- The "Wait for !reset" while-True loop of reset(apply_reset=False),
observed for `budget` iterations. -/
def reset_release_wait (resp : Nat → Nat) :
    Nat → DLState → Except String DLState
  | 0, _ => Except.error "poll budget exhausted"
  | n + 1, s =>
    let r := ldcs_op resp UPDI_ASI_SYS_STATUS s
    if rstsys_set r.1 = false then Except.ok r.2
    else reset_release_wait resp n r.2

/-- UpdiApplication.reset(apply_reset=False): write 0x00 to RESET_REQ, then
poll until RSTSYS clears. -/
def reset_release_op (resp : Nat → Nat) (budget : Nat) (s : DLState) :
    Except String DLState :=
  reset_release_wait resp budget (stcs_op UPDI_ASI_RESET_REQ 0 s)

/-- The "Wait for NVMPROG" while-True loop of enter_progmode, observed for
`budget` iterations. -/
def nvmprog_wait (resp : Nat → Nat) :
    Nat → DLState → Except String DLState
  | 0, _ => Except.error "poll budget exhausted"
  | n + 1, s =>
    let r := ldcs_op resp UPDI_ASI_SYS_STATUS s
    if nvmprog_set r.1 then Except.ok r.2
    else nvmprog_wait resp n r.2

/-- The straight-line tail of UpdiApplication.enter_progmode after
_progmode_key: reset pulse (assert and release), the NVMPROG wait, and the
final in_prog_mode check; True on success. -/
def enter_progmode_after_key (resp : Nat → Nat) (budget : Nat)
    (s1 : DLState) : Except String (Bool × DLState) :=
  match reset_apply_op resp s1 with
  | Except.error e => Except.error e
  | Except.ok s2 =>
    match reset_release_op resp budget s2 with
    | Except.error e => Except.error e
    | Except.ok s3 =>
      match nvmprog_wait resp budget s3 with
      | Except.error e => Except.error e
      | Except.ok s4 =>
        let r := in_prog_mode_op resp s4
        if r.1 then Except.ok (true, r.2)
        else Except.error "Failed to enter NVM programming mode"

/-- UpdiApplication.enter_progmode: _progmode_key, then the reset pulse,
the NVMPROG wait and the final check. -/
def enter_progmode_op (resp : Nat → Nat) (budget : Nat) (s : DLState) :
    Except String (Bool × DLState) :=
  match progmode_key_op resp s with
  | Except.error e => Except.error e
  | Except.ok s1 => enter_progmode_after_key resp budget s1

/-- Recognizes a key event in the trace. -/
def is_key_event : DLEvent → Bool
  | DLEvent.key _ _ => true
  | _ => false

/-- Recognizes a write to ASI_RESET_REQ (the reset pulse edges). -/
def is_reset_write : DLEvent → Bool
  | DLEvent.stcs a _ => a = UPDI_ASI_RESET_REQ
  | _ => false

/-- The trace of a finished enter_progmode call ([] for a raised error). -/
def result_trace (r : Except String (Bool × DLState)) : List DLEvent :=
  match r with
  | Except.ok p => p.2.trace
  | Except.error _ => []

/-- True exactly on a successful (non-raising) result. -/
def except_is_ok (r : Except String (Bool × DLState)) : Bool :=
  match r with
  | Except.ok _ => true
  | Except.error _ => false

/-! ## Theorems -/

/-- Helper: the padded length is an exact multiple of the block size. -/
theorem padded_len_mod (len b : Nat) (hb : 0 < b) :
    (len + (b - len % b)) % b = 0 := by
  have h2 : len % b < b := Nat.mod_lt len hb
  have hml : len % b ≤ len := Nat.mod_le len b
  have he : len + (b - len % b) = (len - len % b) + b := by omega
  rw [he, Nat.add_mod_right]
  exact Nat.mod_eq_zero_of_dvd (Nat.dvd_sub_mod len)

/-- C2 counterexample: against a target whose SYS_STATUS reads never show
the NVMPROG bit (the all-zero response stream), the NVMPROG wait loop of
enter_progmode never breaks, however long it is observed: there is no 200
ms (or any) deadline, and the call polls forever instead of terminating
with an error. -/
theorem progmode_poll_never_exits : ¬ progmode_poll_exits (fun _ => 0) := by
  have hbit : nvmprog_set 0 = false := by decide
  have hz : ∀ (n k : Nat), progmode_poll (fun _ => 0) k n = none := by
    intro n
    induction n with
    | zero => intro k; rfl
    | succ n ih => intro k; simp [progmode_poll, hbit, ih]
  rintro ⟨budget, hb⟩
  rw [hz budget 0] at hb
  simp at hb

/-- C2 (amended): the NVMPROG poll inside enter_progmode is not bounded by
any deadline; it terminates exactly when some SYS_STATUS read shows the
NVMPROG bit. When no read ever shows the bit, the loop polls forever (each
individual ldcs is bounded by the serial read timeout, but the number of
polls is not). -/
theorem progmode_poll_exits_iff (status : Nat → Nat) :
    progmode_poll_exits status ↔ ∃ n, nvmprog_set (status n) = true := by
  constructor
  · rintro ⟨budget, hb⟩
    have fwd : ∀ (n k : Nat), (progmode_poll status k n).isSome →
        ∃ m, nvmprog_set (status m) = true := by
      intro n
      induction n with
      | zero => intro k h; simp [progmode_poll] at h
      | succ n ih =>
        intro k h
        cases hc : nvmprog_set (status k) with
        | true => exact ⟨k, hc⟩
        | false =>
          apply ih (k + 1)
          simpa [progmode_poll, hc] using h
    exact fwd budget 0 hb
  · rintro ⟨n, hn⟩
    have bwd : ∀ (m k : Nat), nvmprog_set (status (k + m)) = true →
        (progmode_poll status k (m + 1)).isSome := by
      intro m
      induction m with
      | zero =>
        intro k h
        simp only [Nat.add_zero] at h
        simp [progmode_poll, h]
      | succ m ih =>
        intro k h
        cases hc : nvmprog_set (status k) with
        | true => simp [progmode_poll, hc]
        | false =>
          have h' : nvmprog_set (status ((k + 1) + m)) = true := by
            have : (k + 1) + m = k + (m + 1) := by omega
            rw [this]
            exact h
          have hrec := ih (k + 1) h'
          simpa [progmode_poll, hc] using hrec
    exact ⟨n + 1, bwd n 0 (by simpa using hn)⟩

/-- Helper: a WRITE_ERROR at the first decisive poll makes wait_flash_ready
return false. -/
theorem wfr_error_first (status : Nat → Nat) :
    ∀ (n k i : Nat), i < n →
      (∀ j, j < i → nvm_write_error (status (k + j)) = false ∧
        nvm_busy (status (k + j)) = true) →
      nvm_write_error (status (k + i)) = true →
      wait_flash_ready status k n = false := by
  intro n
  induction n with
  | zero => intro k i hi; omega
  | succ n ih =>
    intro k i hi hpre herr
    cases i with
    | zero =>
      simp only [Nat.add_zero] at herr
      simp [wait_flash_ready, herr]
    | succ i =>
      obtain ⟨h0e, h0b⟩ := hpre 0 (Nat.succ_pos i)
      simp only [Nat.add_zero] at h0e h0b
      rw [wait_flash_ready, if_neg (by simp [h0e]), if_neg (by simp [h0b])]
      apply ih (k + 1) i (by omega)
      · intro j hj
        have := hpre (j + 1) (by omega)
        constructor
        · have h1 := this.1
          rw [show k + (j + 1) = (k + 1) + j by omega] at h1
          exact h1
        · have h2 := this.2
          rw [show k + (j + 1) = (k + 1) + j by omega] at h2
          exact h2
      · rw [show (k + 1) + i = k + (i + 1) by omega]
        exact herr

/-- Helper: a clear status (no error, no busy bits) at the first decisive
poll makes wait_flash_ready return true. -/
theorem wfr_ready_first (status : Nat → Nat) :
    ∀ (n k i : Nat), i < n →
      (∀ j, j < i → nvm_write_error (status (k + j)) = false ∧
        nvm_busy (status (k + j)) = true) →
      nvm_write_error (status (k + i)) = false →
      nvm_busy (status (k + i)) = false →
      wait_flash_ready status k n = true := by
  intro n
  induction n with
  | zero => intro k i hi; omega
  | succ n ih =>
    intro k i hi hpre herr hbusy
    cases i with
    | zero =>
      simp only [Nat.add_zero] at herr hbusy
      simp [wait_flash_ready, herr, hbusy]
    | succ i =>
      obtain ⟨h0e, h0b⟩ := hpre 0 (Nat.succ_pos i)
      simp only [Nat.add_zero] at h0e h0b
      rw [wait_flash_ready, if_neg (by simp [h0e]), if_neg (by simp [h0b])]
      apply ih (k + 1) i (by omega)
      · intro j hj
        have := hpre (j + 1) (by omega)
        refine ⟨?_, ?_⟩
        · have h1 := this.1
          rw [show k + (j + 1) = (k + 1) + j by omega] at h1
          exact h1
        · have h2 := this.2
          rw [show k + (j + 1) = (k + 1) + j by omega] at h2
          exact h2
      · rw [show (k + 1) + i = k + (i + 1) by omega]
        exact herr
      · rw [show (k + 1) + i = k + (i + 1) by omega]
        exact hbusy

/-- Helper: if the target stays busy for the whole admitted window,
wait_flash_ready returns false at the deadline. -/
theorem wfr_deadline (status : Nat → Nat) :
    ∀ (n k : Nat),
      (∀ j, j < n → nvm_write_error (status (k + j)) = false ∧
        nvm_busy (status (k + j)) = true) →
      wait_flash_ready status k n = false := by
  intro n
  induction n with
  | zero => intro k _; rfl
  | succ n ih =>
    intro k hpre
    obtain ⟨h0e, h0b⟩ := hpre 0 (Nat.succ_pos n)
    simp only [Nat.add_zero] at h0e h0b
    rw [wait_flash_ready, if_neg (by simp [h0e]), if_neg (by simp [h0b])]
    apply ih (k + 1)
    intro j hj
    have := hpre (j + 1) (by omega)
    refine ⟨?_, ?_⟩
    · have h1 := this.1
      rw [show k + (j + 1) = (k + 1) + j by omega] at h1
      exact h1
    · have h2 := this.2
      rw [show k + (j + 1) = (k + 1) + j by omega] at h2
      exact h2

/-- Helper: wait_flash_ready only looks at the polls the deadline admits. -/
theorem wfr_depends_on_window (s1 s2 : Nat → Nat) :
    ∀ (n k : Nat), (∀ j, j < n → s2 (k + j) = s1 (k + j)) →
      wait_flash_ready s2 k n = wait_flash_ready s1 k n := by
  intro n
  induction n with
  | zero => intro k _; rfl
  | succ n ih =>
    intro k hag
    have h0 : s2 k = s1 k := by
      have := hag 0 (Nat.succ_pos n)
      simpa using this
    rw [wait_flash_ready, wait_flash_ready, h0]
    by_cases he : nvm_write_error (s1 k)
    · simp [he]
    · by_cases hb : nvm_busy (s1 k) = false
      · simp [he, hb]
      · simp only [if_neg he, if_neg hb]
        apply ih (k + 1)
        intro j hj
        have := hag (j + 1) (by omega)
        rw [show k + (j + 1) = (k + 1) + j by omega] at this
        exact this

/-- C8: wait_flash_ready returns true at the first poll showing neither
busy bit (with no write error), returns false at the first poll showing
WRITE_ERROR, returns false at its deadline when the target stays busy for
every admitted poll, and never polls beyond the deadline: the result only
depends on the polls the deadline admits. -/
theorem wait_flash_ready_spec (status : Nat → Nat) (polls i : Nat) :
    (i < polls →
      (∀ j, j < i → nvm_write_error (status j) = false ∧
        nvm_busy (status j) = true) →
      (nvm_write_error (status i) = true →
        wait_flash_ready status 0 polls = false) ∧
      (nvm_write_error (status i) = false → nvm_busy (status i) = false →
        wait_flash_ready status 0 polls = true)) ∧
    ((∀ j, j < polls → nvm_write_error (status j) = false ∧
        nvm_busy (status j) = true) →
      wait_flash_ready status 0 polls = false) ∧
    (∀ status2, (∀ j, j < polls → status2 j = status j) →
      wait_flash_ready status2 0 polls = wait_flash_ready status 0 polls) := by
  refine ⟨?_, ?_, ?_⟩
  · intro hi hpre
    constructor
    · intro herr
      exact wfr_error_first status polls 0 i hi (by simpa using hpre)
        (by simpa using herr)
    · intro herr hbusy
      exact wfr_ready_first status polls 0 i hi (by simpa using hpre)
        (by simpa using herr) (by simpa using hbusy)
  · intro hpre
    exact wfr_deadline status polls 0 (by simpa using hpre)
  · intro status2 hag
    exact wfr_depends_on_window status status2 polls 0 (by simpa using hag)

/-- Witness: wait_flash_ready_spec on a target that is busy (status 0x03)
for two polls and ready (status 0x00) on the third, deadline of ten polls,
and the deadline branch on a target that never leaves busy within five
polls. -/
theorem wait_flash_ready_spec_witness :
    (2 < 10 ∧
      (∀ j, j < 2 → nvm_write_error ((fun k => if k < 2 then 3 else 0) j) =
        false ∧ nvm_busy ((fun k => if k < 2 then 3 else 0) j) = true) ∧
      nvm_write_error ((fun k => if k < 2 then 3 else 0) 2) = false ∧
      nvm_busy ((fun k => if k < 2 then 3 else 0) 2) = false ∧
      wait_flash_ready (fun k => if k < 2 then 3 else 0) 0 10 = true) ∧
    ((∀ j, j < 5 → nvm_write_error ((fun _ => 3) j) = false ∧
        nvm_busy ((fun _ => 3) j) = true) ∧
      wait_flash_ready (fun _ => 3) 0 5 = false) := by
  refine ⟨⟨by decide, by decide, by decide, by decide, ?_⟩, ⟨by decide, ?_⟩⟩
  · exact ((wait_flash_ready_spec (fun k => if k < 2 then 3 else 0) 10 2).1
      (by decide) (by decide)).2 (by decide) (by decide)
  · exact (wait_flash_ready_spec (fun _ => 3) 5 0).2.1 (by decide)

/-- C1: the claim states that for data whose length is not a multiple of the
flash pagesize, write_flash pads up to the next multiple and every appended
pad byte equals 0xFF. The padding loop of pad_data appends the literal byte
0 (ignoring its own character=0xFF default and its log message): at the
failing input below, a 1-byte image padded to a 4-byte page, every appended
byte is 0x00 and the final page tail is not 0xFF. -/
theorem pad_data_appends_zero_not_ff :
    pad_data [0xAA] 4 = [0xAA, 0x00, 0x00, 0x00] ∧
    (∀ b ∈ (pad_data [0xAA] 4).drop 1, b = 0x00) ∧
    (pad_data [0xAA] 4).getLast? ≠ some 0xFF := by
  decide

/-- C10: write_flash mutates its caller's data argument in place. pad_data
appends the pad bytes to the very list object passed in and returns that
same reference, so after write_flash the caller's list has grown to the
next multiple of the flash pagesize; every other heap cell is untouched. -/
theorem write_flash_mutates_caller_list (store : Nat → List Nat)
    (r pagesize : Nat) (hp : 0 < pagesize)
    (hmod : (store r).length % pagesize ≠ 0) :
    (pad_data_ref store r pagesize).2 = r ∧
    write_flash_ref store r pagesize r =
      store r ++ List.replicate (pagesize - (store r).length % pagesize) 0 ∧
    (write_flash_ref store r pagesize r).length % pagesize = 0 ∧
    (store r).length < (write_flash_ref store r pagesize r).length ∧
    (write_flash_ref store r pagesize r).length <
      (store r).length + pagesize ∧
    (∀ i, i ≠ r → write_flash_ref store r pagesize i = store i) := by
  have hlen : 0 < (store r).length % pagesize := Nat.pos_of_ne_zero hmod
  have hlt : (store r).length % pagesize < pagesize := Nat.mod_lt _ hp
  have hval : write_flash_ref store r pagesize r =
      store r ++ List.replicate (pagesize - (store r).length % pagesize) 0 := by
    simp [write_flash_ref, write_mem_ref, pad_data_ref, store_set, pad_data,
      hlen]
  refine ⟨rfl, hval, ?_, ?_, ?_, ?_⟩
  · rw [hval]
    simp only [List.length_append, List.length_replicate]
    exact padded_len_mod (store r).length pagesize hp
  · rw [hval]
    simp only [List.length_append, List.length_replicate]
    omega
  · rw [hval]
    simp only [List.length_append, List.length_replicate]
    omega
  · intro i hi
    simp [write_flash_ref, write_mem_ref, pad_data_ref, store_set, hi]

/-- Witness: write_flash_mutates_caller_list applied to the concrete heap
holding the two-byte list [0xAA, 0xBB] at reference 7, pagesize 4. -/
theorem write_flash_mutates_caller_list_witness :
    (0 < 4 ∧ (((fun _ : Nat => [0xAA, 0xBB]) 7)).length % 4 ≠ 0) ∧
    (pad_data_ref (fun _ : Nat => [0xAA, 0xBB]) 7 4).2 = 7 ∧
    write_flash_ref (fun _ : Nat => [0xAA, 0xBB]) 7 4 7 =
      [0xAA, 0xBB, 0x00, 0x00] := by
  refine ⟨⟨by decide, by decide⟩, ?_, ?_⟩
  · exact (write_flash_mutates_caller_list (fun _ => [0xAA, 0xBB]) 7 4
      (by decide) (by decide)).1
  · have h := (write_flash_mutates_caller_list (fun _ => [0xAA, 0xBB]) 7 4
      (by decide) (by decide)).2.1
    simpa using h

/-- C4 counterexample: with only one echo byte available on a three-byte
send, phy_send returns normally with Except.ok instead of failing with an
echo-lost error, refuting the claim's failure path. -/
theorem phy_send_short_echo_returns_ok :
    phy_send [0x55, 0xC3, 0x08] [0x55] = Except.ok [] ∧
    ([0x55] : List Nat).length < ([0x55, 0xC3, 0x08] : List Nat).length :=
  ⟨rfl, by decide⟩

/-- C4 (amended): phy_send writes the buffer, then reads up to len(command)
echo bytes and discards them, always returning normally. When the stream
holds at least len(command) bytes, exactly that many are consumed; when it
holds fewer, the whole remainder is consumed and the call still succeeds,
with no echo-lost error. -/
theorem phy_send_echo_behavior (command inbuf : List Nat) :
    (command.length ≤ inbuf.length →
      phy_send command inbuf = Except.ok (inbuf.drop command.length) ∧
      (inbuf.drop command.length).length = inbuf.length - command.length) ∧
    (inbuf.length < command.length →
      phy_send command inbuf = Except.ok []) := by
  constructor
  · intro _
    exact ⟨rfl, by simp⟩
  · intro h
    simp [phy_send, ser_read, List.drop_eq_nil_of_le (le_of_lt h)]

/-- Witness: phy_send_echo_behavior on a full echo ([0x55] against a 2-byte
stream) and on a lost echo (2-byte send against an empty stream). -/
theorem phy_send_echo_behavior_witness :
    (([0x55] : List Nat).length ≤ ([0x40, 0x40] : List Nat).length ∧
      phy_send [0x55] [0x40, 0x40] =
        Except.ok (([0x40, 0x40] : List Nat).drop
          ([0x55] : List Nat).length)) ∧
    (([] : List Nat).length < ([0x55, 0xC3] : List Nat).length ∧
      phy_send [0x55, 0xC3] [] = Except.ok []) := by
  refine ⟨⟨by decide, ?_⟩, ⟨by decide, ?_⟩⟩
  · exact ((phy_send_echo_behavior [0x55] [0x40, 0x40]).1 (by decide)).1
  · exact (phy_send_echo_behavior [0x55, 0xC3] []).2 (by decide)

/-- C6: dl_key fails with the invalid-key-length error — with nothing placed
on the wire, since the result carries the send list and the error path has
none — exactly when the key length differs from 8 << size; otherwise the
bytes sent after the SYNC + KEY opcode frame are the key bytes in reverse
order, and for an 8-byte 64-bit key K the wire order is K[7], ..., K[0]. -/
theorem key_length_check_and_reversal (size k0 k1 k2 k3 k4 k5 k6 k7 : Nat)
    (kb : List Nat) :
    (kb.length ≠ 8 <<< size →
      dl_key size kb = Except.error "Invalid KEY length!") ∧
    (kb.length = 8 <<< size →
      dl_key size kb =
        Except.ok [[UPDI_PHY_SYNC, UPDI_KEY ||| UPDI_KEY_KEY ||| size],
                   kb.reverse]) ∧
    dl_key UPDI_KEY_64 [k0, k1, k2, k3, k4, k5, k6, k7] =
      Except.ok [[UPDI_PHY_SYNC, UPDI_KEY ||| UPDI_KEY_KEY ||| UPDI_KEY_64],
                 [k7, k6, k5, k4, k3, k2, k1, k0]] := by
  refine ⟨fun h => by simp [dl_key, h], fun h => by simp [dl_key, h], ?_⟩
  simp [dl_key, UPDI_KEY_64]

/-- Witness: key_length_check_and_reversal on a 2-byte key (rejected) and on
the 8-byte key [1..8] (accepted, sent reversed). -/
theorem key_length_check_and_reversal_witness :
    (([0x01, 0x02] : List Nat).length ≠ 8 <<< 0 ∧
      dl_key 0 [0x01, 0x02] = Except.error "Invalid KEY length!") ∧
    (([1, 2, 3, 4, 5, 6, 7, 8] : List Nat).length = 8 <<< 0 ∧
      dl_key 0 [1, 2, 3, 4, 5, 6, 7, 8] =
        Except.ok [[UPDI_PHY_SYNC, UPDI_KEY ||| UPDI_KEY_KEY ||| 0],
                   [8, 7, 6, 5, 4, 3, 2, 1]]) := by
  refine ⟨⟨by decide, ?_⟩, ⟨by decide, ?_⟩⟩
  · exact (key_length_check_and_reversal 0 0 0 0 0 0 0 0 0 [0x01, 0x02]).1
      (by decide)
  · have h :=
      (key_length_check_and_reversal 0 1 2 3 4 5 6 7 8
        [1, 2, 3, 4, 5, 6, 7, 8]).2.2
    simpa [UPDI_KEY_64] using h

/-- Helper: the st_ptr_inc16 pair loop succeeds on any even-length tail. -/
theorem stw_pairs_even_ok :
    ∀ (n : Nat) (l : List Nat), l.length ≤ n → l.length % 2 = 0 →
      ∃ r, stw_pairs l = Except.ok r := by
  intro n
  induction n with
  | zero =>
    intro l hl _
    have : l = [] := List.eq_nil_of_length_eq_zero (Nat.le_zero.mp hl)
    subst this
    exact ⟨[], rfl⟩
  | succ n ih =>
    intro l hl hev
    rcases l with _ | ⟨a, l⟩
    · exact ⟨[], rfl⟩
    rcases l with _ | ⟨b, rest⟩
    · simp at hev
    have hev' : rest.length % 2 = 0 := by
      simp only [List.length_cons] at hev
      omega
    have hl' : rest.length ≤ n := by
      simp only [List.length_cons] at hl
      omega
    obtain ⟨r, hr⟩ := ih rest hl' hev'
    exact ⟨[a, b] :: r, by simp [stw_pairs, hr]⟩

/-- C9 counterexample: the odd length 5 violates the claimed precondition
(length even and at most 510) yet write_data_words does not fail with the
length error: the range check passes, the transfer starts, and the word
loop of st_ptr_inc16 reads data[5] past the end of the list — a Python
IndexError, not a length error. -/
theorem write_data_words_odd_length_not_length_error :
    write_data_words 0x1000 [1, 2, 3, 4, 5] = Except.error "IndexError" ∧
    write_data_words 0x1000 [1, 2, 3, 4, 5] ≠
      Except.error "Invalid length" := by
  have h : write_data_words 0x1000 [1, 2, 3, 4, 5] =
      Except.error "IndexError" := rfl
  refine ⟨h, ?_⟩
  rw [h]
  intro hc
  have : ("IndexError" : String) = "Invalid length" := by
    injection hc
  exact absurd this (by decide)

/-- C9 (amended): write_data_words rejects only byte lengths above
2 * UPDI_MAX_REPEAT_SIZE = 510 with the "Invalid length" error; evenness
and non-emptiness are never checked (an odd length above 2 reaches the
out-of-bounds index data[len] inside st_ptr_inc16, as the counterexample
shows). Under the full precondition — even length with 2 <= len <= 510 —
every list index the transfer accesses is in bounds and the call returns
its send list. -/
theorem write_data_words_length_check (address : Nat) (data : List Nat) :
    (data.length > UPDI_MAX_REPEAT_SIZE <<< 1 →
      write_data_words address data = Except.error "Invalid length") ∧
    (2 ≤ data.length → data.length % 2 = 0 →
      data.length ≤ UPDI_MAX_REPEAT_SIZE <<< 1 →
      ∃ sends, write_data_words address data = Except.ok sends) := by
  constructor
  · intro h
    have h2 : data.length ≠ 2 := by
      simp only [UPDI_MAX_REPEAT_SIZE] at h
      omega
    simp [write_data_words, h2, h]
  · intro hge hev hle
    by_cases h2 : data.length = 2
    · refine ⟨st16_sends address (data.getD 0 0 + (data.getD 1 0 <<< 8)), ?_⟩
      simp [write_data_words, h2]
    · rcases data with _ | ⟨a, data⟩
      · simp at hge
      rcases data with _ | ⟨b, rest⟩
      · simp at hge
      have hrest : rest.length % 2 = 0 := by
        simp only [List.length_cons] at hev
        omega
      obtain ⟨r, hr⟩ := stw_pairs_even_ok rest.length rest le_rfl hrest
      have hne : rest ≠ [] := by
        intro hrest0
        subst hrest0
        exact h2 rfl
      have hnot : ¬ UPDI_MAX_REPEAT_SIZE <<< 1 < rest.length + 1 + 1 := by
        have h510 : UPDI_MAX_REPEAT_SIZE <<< 1 = 510 := by decide
        simp only [List.length_cons, h510] at hle ⊢
        omega
      have hout : write_data_words address (a :: b :: rest) =
          Except.ok (st_ptr_sends address ++
            repeat_sends ((a :: b :: rest).length >>> 1) ++
            ([UPDI_PHY_SYNC, UPDI_ST ||| UPDI_PTR_INC ||| UPDI_DATA_16,
              a, b] :: r)) := by
        simp [write_data_words, h2, hne, hnot, st_ptr_inc16, hr]
      exact ⟨_, hout⟩

/-- Witness: write_data_words_length_check on a 512-byte batch (rejected
with the length error) and on the four-byte word pair [1, 2, 3, 4]
(transfer succeeds). -/
theorem write_data_words_length_check_witness :
    ((List.replicate 512 (0 : Nat)).length > UPDI_MAX_REPEAT_SIZE <<< 1 ∧
      write_data_words 0x1000 (List.replicate 512 0) =
        Except.error "Invalid length") ∧
    (2 ≤ ([1, 2, 3, 4] : List Nat).length ∧
      ([1, 2, 3, 4] : List Nat).length % 2 = 0 ∧
      ([1, 2, 3, 4] : List Nat).length ≤ UPDI_MAX_REPEAT_SIZE <<< 1 ∧
      ∃ sends, write_data_words 0x1000 [1, 2, 3, 4] = Except.ok sends) := by
  have h1 : (List.replicate 512 (0 : Nat)).length >
      UPDI_MAX_REPEAT_SIZE <<< 1 := by
    rw [List.length_replicate]
    decide
  refine ⟨⟨h1, ?_⟩, by decide, by decide, by decide, ?_⟩
  · exact (write_data_words_length_check 0x1000 (List.replicate 512 0)).1 h1
  · exact (write_data_words_length_check 0x1000 [1, 2, 3, 4]).2
      (by decide) (by decide) (by decide)

/-- Helper: closed form of the page loop when each page read passes the
repeat-size check. -/
theorem read_mem_pages_ok (mem : Nat → Nat) (pagesize : Nat)
    (hmax : pagesize >>> 1 ≤ UPDI_MAX_REPEAT_SIZE) (hev : pagesize % 2 = 0) :
    ∀ (n address : Nat),
      read_mem_pages mem address pagesize n =
        Except.ok
          ((List.range n).map (fun i => (address + i * pagesize,
             pagesize >>> 1)),
           (List.range (n * pagesize)).map fun i => mem (address + i)) := by
  have h2 : 2 * (pagesize >>> 1) = pagesize := by
    rw [Nat.shiftRight_eq_div_pow]
    omega
  intro n
  induction n with
  | zero =>
    intro address
    simp [read_mem_pages]
  | succ n ih =>
    intro address
    have hrd : read_data_words mem address (pagesize >>> 1) =
        Except.ok ((List.range (2 * (pagesize >>> 1))).map
          fun i => mem (address + i)) := by
      rw [read_data_words, if_neg (by omega)]
    rw [read_mem_pages, hrd, ih (address + pagesize)]
    have hcalls : (List.range (n + 1)).map
        (fun i => (address + i * pagesize, pagesize >>> 1)) =
        (address, pagesize >>> 1) ::
          (List.range n).map
            (fun i => (address + pagesize + i * pagesize,
              pagesize >>> 1)) := by
      rw [List.range_succ_eq_map, List.map_cons, List.map_map]
      refine congrArg₂ _ (by simp) ?_
      refine List.map_congr_left ?_
      intro i _
      simp only [Function.comp_apply]
      have : address + (i + 1) * pagesize =
          address + pagesize + i * pagesize := by ring
      rw [Nat.succ_eq_add_one, this]
    have hdata : (List.range ((n + 1) * pagesize)).map
        (fun i => mem (address + i)) =
        (List.range (2 * (pagesize >>> 1))).map
          (fun i => mem (address + i)) ++
        (List.range (n * pagesize)).map
          (fun i => mem (address + pagesize + i)) := by
      rw [h2]
      have hsplit : (n + 1) * pagesize = pagesize + n * pagesize := by ring
      rw [hsplit, List.range_add, List.map_append, List.map_map]
      refine congrArg₂ _ rfl ?_
      refine List.map_congr_left ?_
      intro i _
      simp only [Function.comp_apply]
      exact congrArg mem (by ring)
    rw [hcalls, hdata]

/-- C7: read_flash fails when the programmer is not in progmode, fails with
the alignment error when size is not a multiple of the flash pagesize, and
otherwise performs exactly size/pagesize page reads of pagesize/2 words
each, advancing the address by pagesize per iteration, and returns the
in-order concatenation of the pages: the bytes of the addressed range,
size bytes in total. The hypotheses state the device invariants on flash
page sizes (positive, even, at most 2 * UPDI_MAX_REPEAT_SIZE). -/
theorem read_flash_spec (mem : Nat → Nat) (address size pagesize : Nat)
    (hps : 0 < pagesize) (hev : pagesize % 2 = 0)
    (hmax : pagesize >>> 1 ≤ UPDI_MAX_REPEAT_SIZE) :
    (read_flash mem false address size pagesize =
      Except.error "Enter progmode first!") ∧
    (size % pagesize ≠ 0 →
      read_flash mem true address size pagesize =
        Except.error "Only full page aligned flash supported.") ∧
    (size % pagesize = 0 →
      read_flash mem true address size pagesize =
        Except.ok
          ((List.range (size / pagesize)).map
             (fun i => (address + i * pagesize, pagesize >>> 1)),
           (List.range size).map fun i => mem (address + i)) ∧
      ((List.range size).map fun i => mem (address + i)).length = size) := by
  have hps' : pagesize ≠ 0 := Nat.pos_iff_ne_zero.mp hps
  refine ⟨by simp [read_flash, read_mem_words], ?_, ?_⟩
  · intro hal
    simp [read_flash, read_mem_words, hps', hal]
  · intro hal
    constructor
    · have hmul : size / pagesize * pagesize = size :=
        Nat.div_mul_cancel (Nat.dvd_of_mod_eq_zero hal)
      have := read_mem_pages_ok mem pagesize hmax hev (size / pagesize)
        address
      rw [hmul] at this
      simp [read_flash, read_mem_words, hps', hal, this]
    · simp

/-- Witness: read_flash_spec with byte-identity memory, pagesize 2, size 4,
covering the not-in-progmode error, the alignment error at size 3, and the
aligned read of two pages. -/
theorem read_flash_spec_witness :
    (0 < 2 ∧ 2 % 2 = 0 ∧ (2 : Nat) >>> 1 ≤ UPDI_MAX_REPEAT_SIZE) ∧
    read_flash (fun a => a % 256) false 0 4 2 =
      Except.error "Enter progmode first!" ∧
    ((3 : Nat) % 2 ≠ 0 ∧
      read_flash (fun a => a % 256) true 0 3 2 =
        Except.error "Only full page aligned flash supported.") ∧
    ((4 : Nat) % 2 = 0 ∧
      read_flash (fun a => a % 256) true 0 4 2 =
        Except.ok
          ((List.range (4 / 2)).map (fun i => (0 + i * 2, (2 : Nat) >>> 1)),
           (List.range 4).map fun i => (fun a => a % 256) (0 + i))) := by
  refine ⟨⟨by decide, by decide, by decide⟩, ?_, ⟨by decide, ?_⟩,
    ⟨by decide, ?_⟩⟩
  · exact (read_flash_spec (fun a => a % 256) 0 4 2 (by decide) (by decide)
      (by decide)).1
  · exact (read_flash_spec (fun a => a % 256) 0 3 2 (by decide) (by decide)
      (by decide)).2.1 (by decide)
  · exact ((read_flash_spec (fun a => a % 256) 0 4 2 (by decide) (by decide)
      (by decide)).2.2 (by decide)).1

/-- C5 counterexample: a SIB whose NVM revision field (bytes 8 up to 11)
parses as "P:2" but whose family field holds the byte 0xFF, which is not
valid UTF-8: the source raises UnicodeDecodeError at family.decode()
before the P:2 switch is reached, so the call does not complete
successfully, refuting the claim as stated. -/
theorem device_info_decode_error_despite_p2 :
    strip_bytes (slice_bytes [0xFF, 0x41, 0x41, 0x41, 0x41, 0x41, 0x41,
      0x20, 0x50, 0x3A, 0x32] 8 11) = pdi_v2_bytes ∧
    device_info (fun _ => 0) (fun _ => 0) none
        { useV1 := false, dl := { bits24 := false } }
        [0xFF, 0x41, 0x41, 0x41, 0x41, 0x41, 0x41, 0x20, 0x50, 0x3A,
         0x32] =
      Except.error "UnicodeDecodeError" :=
  ⟨by decide, rfl⟩

/-- C5 (amended): when the SIB's NVM revision field (bytes 8 up to 11)
parses as "P:2" and the stripped family, OCD and oscillator fields decode
without error (they are valid UTF-8, as every real SIB's ASCII fields
are), device_info switches the NVM write path to the V1 variant and
enables 24-bit addressing on the data link, and the call completes
successfully returning the parsed device information; when one of those
fields is not valid UTF-8, the call raises UnicodeDecodeError instead. -/
theorem device_info_p2_switches_to_v1 (resp mem : Nat → Nat)
    (device : Option (Nat × Nat)) (st : AppState) (sib : List Nat)
    (h : strip_bytes (slice_bytes sib 8 11) = pdi_v2_bytes)
    (hfam : utf8_valid (strip_bytes (slice_bytes sib 0 7)) = true)
    (hocd : utf8_valid (strip_bytes (slice_bytes sib 11 14)) = true)
    (hosc : utf8_valid (strip_bytes (slice_bytes sib 15 19)) = true) :
    ∃ info st1,
      device_info resp mem device st sib = Except.ok (info, st1) ∧
      st1.useV1 = true ∧ st1.dl.bits24 = true ∧
      info.nvm = pdi_v2_bytes ∧
      info.family = strip_bytes (slice_bytes sib 0 7) ∧
      info.ocd = strip_bytes (slice_bytes sib 11 14) ∧
      info.osc = strip_bytes (slice_bytes sib 15 19) := by
  have h3 : ¬ (3 : Nat) > UPDI_MAX_REPEAT_SIZE := by decide
  have h1 : ¬ (1 : Nat) > UPDI_MAX_REPEAT_SIZE := by decide
  have hnvm : utf8_valid pdi_v2_bytes = true := by decide
  by_cases hp : nvmprog_set (resp 1)
  · cases device with
    | none =>
      have heq : device_info resp mem none st sib =
          Except.ok ({ family := strip_bytes (slice_bytes sib 0 7),
                       nvm := pdi_v2_bytes,
                       ocd := strip_bytes (slice_bytes sib 11 14),
                       osc := strip_bytes (slice_bytes sib 15 19),
                       device_id := none, device_rev := none },
                     { useV1 := true, dl := { bits24 := true } }) := by
        simp [device_info, bytes_decode, h, hfam, hocd, hosc, hnvm, hp,
          set_24bit_updi]
      exact ⟨_, _, heq, rfl, rfl, rfl, rfl, rfl, rfl⟩
    | some d =>
      obtain ⟨sigrow, syscfg⟩ := d
      have heq : device_info resp mem (some (sigrow, syscfg)) st sib =
          Except.ok ({ family := strip_bytes (slice_bytes sib 0 7),
                       nvm := pdi_v2_bytes,
                       ocd := strip_bytes (slice_bytes sib 11 14),
                       osc := strip_bytes (slice_bytes sib 15 19),
                       device_id :=
                         some ((List.range 3).map fun i => mem (sigrow + i)),
                       device_rev :=
                         some (0x41 + ((List.range 1).map fun i =>
                           mem (syscfg + 1 + i)).headD 0) },
                     { useV1 := true, dl := { bits24 := true } }) := by
        simp [device_info, bytes_decode, h, hfam, hocd, hosc, hnvm, hp,
          set_24bit_updi, read_data, h3, h1]
      exact ⟨_, _, heq, rfl, rfl, rfl, rfl, rfl, rfl⟩
  · have heq : device_info resp mem device st sib =
        Except.ok ({ family := strip_bytes (slice_bytes sib 0 7),
                     nvm := pdi_v2_bytes,
                     ocd := strip_bytes (slice_bytes sib 11 14),
                     osc := strip_bytes (slice_bytes sib 15 19),
                     device_id := none, device_rev := none },
                   { useV1 := true, dl := { bits24 := true } }) := by
      simp [device_info, bytes_decode, h, hfam, hocd, hosc, hnvm, hp,
        set_24bit_updi]
    exact ⟨_, _, heq, rfl, rfl, rfl, rfl, rfl, rfl⟩

/-- Witness: device_info_p2_switches_to_v1 on the SIB bytes of
"AVR     P:2D:1-3M2 " (all fields ASCII, hence decodable) with a target
that is not in progmode. -/
theorem device_info_p2_switches_to_v1_witness :
    (strip_bytes (slice_bytes [0x41, 0x56, 0x52, 0x20, 0x20, 0x20, 0x20,
      0x20, 0x50, 0x3A, 0x32, 0x44, 0x3A, 0x31, 0x2D, 0x33, 0x4D, 0x32,
      0x20] 8 11) = pdi_v2_bytes ∧
     utf8_valid (strip_bytes (slice_bytes [0x41, 0x56, 0x52, 0x20, 0x20,
       0x20, 0x20, 0x20, 0x50, 0x3A, 0x32, 0x44, 0x3A, 0x31, 0x2D, 0x33,
       0x4D, 0x32, 0x20] 0 7)) = true ∧
     utf8_valid (strip_bytes (slice_bytes [0x41, 0x56, 0x52, 0x20, 0x20,
       0x20, 0x20, 0x20, 0x50, 0x3A, 0x32, 0x44, 0x3A, 0x31, 0x2D, 0x33,
       0x4D, 0x32, 0x20] 11 14)) = true ∧
     utf8_valid (strip_bytes (slice_bytes [0x41, 0x56, 0x52, 0x20, 0x20,
       0x20, 0x20, 0x20, 0x50, 0x3A, 0x32, 0x44, 0x3A, 0x31, 0x2D, 0x33,
       0x4D, 0x32, 0x20] 15 19)) = true) ∧
    ∃ info st1,
      device_info (fun _ => 0) (fun _ => 0) none
          { useV1 := false, dl := { bits24 := false } }
          [0x41, 0x56, 0x52, 0x20, 0x20, 0x20, 0x20, 0x20, 0x50, 0x3A,
           0x32, 0x44, 0x3A, 0x31, 0x2D, 0x33, 0x4D, 0x32, 0x20] =
        Except.ok (info, st1) ∧
      st1.useV1 = true ∧ st1.dl.bits24 = true ∧
      info.nvm = pdi_v2_bytes ∧
      info.family = strip_bytes (slice_bytes [0x41, 0x56, 0x52, 0x20, 0x20,
        0x20, 0x20, 0x20, 0x50, 0x3A, 0x32, 0x44, 0x3A, 0x31, 0x2D, 0x33,
        0x4D, 0x32, 0x20] 0 7) ∧
      info.ocd = strip_bytes (slice_bytes [0x41, 0x56, 0x52, 0x20, 0x20,
        0x20, 0x20, 0x20, 0x50, 0x3A, 0x32, 0x44, 0x3A, 0x31, 0x2D, 0x33,
        0x4D, 0x32, 0x20] 11 14) ∧
      info.osc = strip_bytes (slice_bytes [0x41, 0x56, 0x52, 0x20, 0x20,
        0x20, 0x20, 0x20, 0x50, 0x3A, 0x32, 0x44, 0x3A, 0x31, 0x2D, 0x33,
        0x4D, 0x32, 0x20] 15 19) := by
  refine ⟨⟨by decide, by decide, by decide, by decide⟩, ?_⟩
  exact device_info_p2_switches_to_v1 (fun _ => 0) (fun _ => 0) none
    { useV1 := false, dl := { bits24 := false } } _ (by decide) (by decide)
    (by decide) (by decide)

/-- Helper: _progmode_key on a target already in prog mode reads SYS_STATUS
once and returns, sending no key. -/
theorem progmode_key_already (resp : Nat → Nat) (s : DLState)
    (h : nvmprog_set (resp s.reads) = true) :
    progmode_key_op resp s = Except.ok
      { reads := s.reads + 1,
        trace := s.trace ++
          [DLEvent.ldcs UPDI_ASI_SYS_STATUS (resp s.reads)] } := by
  simp [progmode_key_op, in_prog_mode_op, ldcs_op, h]

/-- Helper: a successful reset assert appends one RESET_REQ write and one
status read. -/
theorem reset_apply_op_trace (resp : Nat → Nat) (s s' : DLState)
    (h : reset_apply_op resp s = Except.ok s') :
    ∃ ev, s'.trace = s.trace ++ ev ∧
      ev.countP is_key_event = 0 ∧ ev.countP is_reset_write = 1 := by
  by_cases hc : rstsys_set (resp s.reads) = false
  · simp [reset_apply_op, stcs_op, ldcs_op, hc] at h
  · simp [reset_apply_op, stcs_op, ldcs_op, hc] at h
    refine ⟨[DLEvent.stcs UPDI_ASI_RESET_REQ UPDI_RESET_REQ_VALUE,
             DLEvent.ldcs UPDI_ASI_SYS_STATUS (resp s.reads)], ?_, ?_, ?_⟩
    · rw [← h]
    · simp [is_key_event]
    · simp [is_reset_write, List.countP_cons, is_key_event]

/-- Helper: a finishing RSTSYS-clear wait appends only status reads. -/
theorem reset_release_wait_trace (resp : Nat → Nat) :
    ∀ (n : Nat) (s s' : DLState),
      reset_release_wait resp n s = Except.ok s' →
      ∃ ev, s'.trace = s.trace ++ ev ∧
        ev.countP is_key_event = 0 ∧ ev.countP is_reset_write = 0 := by
  intro n
  induction n with
  | zero =>
    intro s s' h
    simp [reset_release_wait] at h
  | succ n ih =>
    intro s s' h
    by_cases hc : rstsys_set (resp s.reads) = false
    · simp [reset_release_wait, ldcs_op, hc] at h
      refine ⟨[DLEvent.ldcs UPDI_ASI_SYS_STATUS (resp s.reads)], ?_, ?_, ?_⟩
      · rw [← h]
      · simp [is_key_event]
      · simp [is_reset_write]
    · simp only [reset_release_wait, ldcs_op] at h
      rw [if_neg hc] at h
      obtain ⟨ev, htr, hk, hr⟩ := ih _ _ h
      refine ⟨[DLEvent.ldcs UPDI_ASI_SYS_STATUS (resp s.reads)] ++ ev,
        ?_, ?_, ?_⟩
      · rw [htr]
        simp
      · simp [List.countP_append, hk, is_key_event]
      · simp [List.countP_append, hr, is_reset_write]

/-- Helper: reset release writes RESET_REQ once and then only reads. -/
theorem reset_release_op_trace (resp : Nat → Nat) (budget : Nat)
    (s s' : DLState) (h : reset_release_op resp budget s = Except.ok s') :
    ∃ ev, s'.trace = s.trace ++ ev ∧
      ev.countP is_key_event = 0 ∧ ev.countP is_reset_write = 1 := by
  obtain ⟨ev, htr, hk, hr⟩ :=
    reset_release_wait_trace resp budget _ s' h
  refine ⟨[DLEvent.stcs UPDI_ASI_RESET_REQ 0] ++ ev, ?_, ?_, ?_⟩
  · rw [htr]
    simp [stcs_op]
  · simp [List.countP_append, hk, is_key_event]
  · simp [List.countP_append, hr, is_reset_write, List.countP_cons]

/-- Helper: a finishing NVMPROG wait appends only status reads. -/
theorem nvmprog_wait_trace (resp : Nat → Nat) :
    ∀ (n : Nat) (s s' : DLState),
      nvmprog_wait resp n s = Except.ok s' →
      ∃ ev, s'.trace = s.trace ++ ev ∧
        ev.countP is_key_event = 0 ∧ ev.countP is_reset_write = 0 := by
  intro n
  induction n with
  | zero =>
    intro s s' h
    simp [nvmprog_wait] at h
  | succ n ih =>
    intro s s' h
    by_cases hc : nvmprog_set (resp s.reads) = true
    · simp [nvmprog_wait, ldcs_op, hc] at h
      refine ⟨[DLEvent.ldcs UPDI_ASI_SYS_STATUS (resp s.reads)], ?_, ?_, ?_⟩
      · rw [← h]
      · simp [is_key_event]
      · simp [is_reset_write]
    · rw [nvmprog_wait] at h
      simp only [ldcs_op] at h
      rw [if_neg (by simpa using hc)] at h
      obtain ⟨ev, htr, hk, hr⟩ := ih _ _ h
      refine ⟨[DLEvent.ldcs UPDI_ASI_SYS_STATUS (resp s.reads)] ++ ev,
        ?_, ?_, ?_⟩
      · rw [htr]
        simp
      · simp [List.countP_append, hk, is_key_event]
      · simp [List.countP_append, hr, is_reset_write]

/-- C3 counterexample: against a target whose SYS_STATUS reads show NVMPROG
already set at the very first read (responses 0x08, with 0x20 on read 1 so
the reset assert verifies), enter_progmode succeeds without sending any
key, but it does not return immediately: its trace still holds the two
RESET_REQ writes of the reset pulse and seven wire events in all. -/
theorem enter_progmode_not_immediate_when_nvmprog_set :
    nvmprog_set ((fun k => if k = 1 then 0x20 else 0x08) 0) = true ∧
    except_is_ok (enter_progmode_op (fun k => if k = 1 then 0x20 else 0x08)
      8 { reads := 0, trace := [] }) = true ∧
    (result_trace (enter_progmode_op (fun k => if k = 1 then 0x20 else 0x08)
      8 { reads := 0, trace := [] })).countP is_reset_write = 2 ∧
    (result_trace (enter_progmode_op (fun k => if k = 1 then 0x20 else 0x08)
      8 { reads := 0, trace := [] })).countP is_key_event = 0 ∧
    (result_trace (enter_progmode_op (fun k => if k = 1 then 0x20 else 0x08)
      8 { reads := 0, trace := [] })).length = 7 := by
  decide

/-- C3 (amended): when the first SYS_STATUS read already shows NVMPROG set,
enter_progmode skips the key — no run, successful or not, puts a key event
on the wire, so two successive enter_progmode calls issue the key at most
once — but the call does not return immediately: every successful run
still performs the reset pulse, writing ASI_RESET_REQ exactly twice
(assert and release) and polling SYS_STATUS further. -/
theorem enter_progmode_skips_key_but_still_resets (resp : Nat → Nat)
    (budget : Nat) (h : nvmprog_set (resp 0) = true) :
    (result_trace (enter_progmode_op resp budget
        { reads := 0, trace := [] })).countP is_key_event = 0 ∧
    (∀ b s', enter_progmode_op resp budget { reads := 0, trace := [] } =
        Except.ok (b, s') →
      s'.trace.countP is_reset_write = 2) := by
  have tail : ∀ (s1 : DLState) (b : Bool) (s' : DLState),
      enter_progmode_after_key resp budget s1 = Except.ok (b, s') →
      ∃ ev, s'.trace = s1.trace ++ ev ∧
        ev.countP is_key_event = 0 ∧ ev.countP is_reset_write = 2 := by
    intro s1 b s' hok
    unfold enter_progmode_after_key at hok
    cases hra : reset_apply_op resp s1 with
    | error e =>
      rw [hra] at hok
      simp at hok
    | ok s2 =>
      rw [hra] at hok
      dsimp only at hok
      cases hrr : reset_release_op resp budget s2 with
      | error e =>
        rw [hrr] at hok
        simp at hok
      | ok s3 =>
        rw [hrr] at hok
        dsimp only at hok
        cases hnw : nvmprog_wait resp budget s3 with
        | error e =>
          rw [hnw] at hok
          simp at hok
        | ok s4 =>
          rw [hnw] at hok
          dsimp only at hok
          by_cases hf : nvmprog_set (resp s4.reads) = true
          · simp only [in_prog_mode_op, ldcs_op, hf, if_pos] at hok
            simp only [Except.ok.injEq, Prod.mk.injEq] at hok
            obtain ⟨hb, hs⟩ := hok
            obtain ⟨ev2, htr2, hk2, hr2⟩ := reset_apply_op_trace resp s1 s2 hra
            obtain ⟨ev3, htr3, hk3, hr3⟩ :=
              reset_release_op_trace resp budget s2 s3 hrr
            obtain ⟨ev4, htr4, hk4, hr4⟩ :=
              nvmprog_wait_trace resp budget s3 s4 hnw
            have hs'tr : s'.trace = s4.trace ++
                [DLEvent.ldcs UPDI_ASI_SYS_STATUS (resp s4.reads)] := by
              rw [← hs]
            refine ⟨ev2 ++ ev3 ++ ev4 ++
              [DLEvent.ldcs UPDI_ASI_SYS_STATUS (resp s4.reads)], ?_, ?_, ?_⟩
            · rw [hs'tr, htr4, htr3, htr2]
              simp
            · simp [List.countP_append, hk2, hk3, hk4, is_key_event]
            · simp [List.countP_append, hr2, hr3, hr4, is_reset_write]
          · simp only [in_prog_mode_op, ldcs_op] at hok
            rw [if_neg (by simpa using hf)] at hok
            simp at hok
  have hkey := progmode_key_already resp { reads := 0, trace := [] }
    (by simpa using h)
  have hstep : enter_progmode_op resp budget { reads := 0, trace := [] } =
      enter_progmode_after_key resp budget
        { reads := 1, trace := [DLEvent.ldcs UPDI_ASI_SYS_STATUS (resp 0)] } := by
    unfold enter_progmode_op
    rw [hkey]
    rfl
  have hchain : ∀ b s',
      enter_progmode_op resp budget { reads := 0, trace := [] } =
        Except.ok (b, s') →
      s'.trace.countP is_key_event = 0 ∧
        s'.trace.countP is_reset_write = 2 := by
    intro b s' hok
    rw [hstep] at hok
    obtain ⟨ev, htr, hk, hr⟩ := tail _ b s' hok
    rw [htr]
    constructor
    · simp [List.countP_append, hk, is_key_event]
    · simp [List.countP_append, hr, is_reset_write]
  constructor
  · cases hout : enter_progmode_op resp budget { reads := 0, trace := [] } with
    | error e => simp [result_trace, hout]
    | ok p =>
      obtain ⟨b, s'⟩ := p
      have := (hchain b s' hout).1
      simpa [result_trace, hout] using this
  · intro b s' hok
    exact (hchain b s' hok).2

/-- Witness: enter_progmode_skips_key_but_still_resets against the
responses used by the counterexample (NVMPROG set on read 0). -/
theorem enter_progmode_skips_key_but_still_resets_witness :
    nvmprog_set ((fun k => if k = 1 then 0x20 else 0x08) 0) = true ∧
    ((result_trace (enter_progmode_op
        (fun k => if k = 1 then 0x20 else 0x08) 9
        { reads := 0, trace := [] })).countP is_key_event = 0 ∧
      (∀ b s', enter_progmode_op (fun k => if k = 1 then 0x20 else 0x08) 9
          { reads := 0, trace := [] } = Except.ok (b, s') →
        s'.trace.countP is_reset_write = 2)) :=
  ⟨by decide, enter_progmode_skips_key_but_still_resets
    (fun k => if k = 1 then 0x20 else 0x08) 9 (by decide)⟩

end Pyupdi
